import Mathlib

/-!
Verification of the door-generation orchestration scripts
(`complete_door_generator.py`, `blender_exact_door.py`,
`generate_single_door.py`) against their natural-language specification.

The Python scripts are shallowly embedded: module-level configuration
constants become Lean constants, vendor factory objects become a record
whose attribute slots are `Option`-valued (`none` models an absent Python
attribute), and effectful code (subprocess calls, filesystem operations,
`os.chdir`, exceptions) is modelled by explicit environments describing
the outside world together with traces of the effects performed.
-/

namespace DoorGen

/-! ## Configuration constants of `complete_door_generator.py` (lines 24-36) -/

def DOOR_TYPE : String := "louver"

def HANDLE_TYPE : String := "pull"

def X_SUBDIVISIONS : Nat := 1

def Y_SUBDIVISIONS : Nat := 2

def SEED : Nat := 15

def EXPORT_FORMAT : String := "mjcf"

def OUTPUT_DIR : String := "sim_exports/" ++ EXPORT_FORMAT ++ "/door/" ++ toString SEED

def BLENDER_PATH : String := "/Applications/Blender.app/Contents/MacOS/Blender"

def INFINIGEN_PATH : String := "/Users/omarrayyann/Documents/infinigen"

def CONDA_PYTHON : String := "/opt/anaconda3/envs/infinigen/bin/python"

def EXPORT_SCRIPT_PATH : String := "/tmp/mujoco_export_script.py"

/-! ## Vendor factory model

The four Infinigen door factory classes imported by the scripts. -/

inductive FactoryClass
  | PanelDoorFactory
  | GlassPanelDoorFactory
  | LouverDoorFactory
  | LiteDoorFactory
  deriving DecidableEq, Repr

/-- A vendor factory object.  Python objects carry dynamic attributes, so the
subdivision slots are `Option`-valued: `none` models `hasattr(...) == False`,
and assigning to an absent attribute creates it (`some v`). -/
structure Factory where
  cls : FactoryClass
  factory_seed : Nat
  coarse : Bool
  handle_type : String
  x_subdivisions : Option Nat
  y_subdivisions : Option Nat
  deriving DecidableEq, Repr

/-- The vendor constructor `factory_class(factory_seed, coarse)` runs seeded
randomization that the scripts do not control; it is modelled by an arbitrary
assignment of the initial attribute values as a function of the class, seed
and coarse flag. -/
structure VendorInit where
  init_handle : FactoryClass → Nat → Bool → String
  init_x : FactoryClass → Nat → Bool → Option Nat
  init_y : FactoryClass → Nat → Bool → Option Nat

/-- `factory_class(factory_seed, coarse)`: the freshly constructed factory,
with attributes as the vendor's seeded randomization assigned them. -/
def constructFactory (vi : VendorInit) (c : FactoryClass) (factory_seed : Nat)
    (coarse : Bool) : Factory :=
  { cls := c
    factory_seed := factory_seed
    coarse := coarse
    handle_type := vi.init_handle c factory_seed coarse
    x_subdivisions := vi.init_x c factory_seed coarse
    y_subdivisions := vi.init_y c factory_seed coarse }

/-- The `factory_map` dictionary used by all three scripts
(`complete_door_generator.py` lines 123-128 and 189-194,
`blender_exact_door.py` lines 98-103); lookup of a key not among the four
entries yields `none`. -/
def factory_map (door_type : String) : Option FactoryClass :=
  if door_type = "panel" then some FactoryClass.PanelDoorFactory
  else if door_type = "glass_panel" then some FactoryClass.GlassPanelDoorFactory
  else if door_type = "louver" then some FactoryClass.LouverDoorFactory
  else if door_type = "lite" then some FactoryClass.LiteDoorFactory
  else none

/-! ## The monkey patch (`patch_door_factory`, `complete_door_generator.py`
lines 175-228) -/

/-- `create_exact_factory(factory_seed, coarse=False, constants=None)`
(lines 204-221): constructs the factory of the chosen class, then forces
`handle_type` unconditionally and each subdivision count only when the
factory has that attribute (`hasattr` guard, lines 215-218).
The `constants` argument is accepted and ignored, as in the source. -/
def create_exact_factory (vi : VendorInit) (factory_class : FactoryClass)
    (factory_seed : Nat) (coarse : Bool) (_constants : Option Unit) : Factory :=
  let factory := constructFactory vi factory_class factory_seed coarse
  let factory := { factory with handle_type := HANDLE_TYPE }
  let factory :=
    if factory.x_subdivisions.isSome then
      { factory with x_subdivisions := some X_SUBDIVISIONS }
    else factory
  let factory :=
    if factory.y_subdivisions.isSome then
      { factory with y_subdivisions := some Y_SUBDIVISIONS }
    else factory
  factory

/-- `patched_random_door_factory()` (lines 196-223): looks up
`factory_map[DOOR_TYPE]` (a `KeyError`, modelled as `none`, if absent) and
returns the `create_exact_factory` closure.  The ambient vendor library is
threaded as the `VendorInit` argument. -/
def patched_random_door_factory (vi : VendorInit) :
    Option (Nat → Bool → Option Unit → Factory) :=
  match factory_map DOOR_TYPE with
  | none => none
  | some factory_class =>
      some (fun factory_seed coarse constants =>
        create_exact_factory vi factory_class factory_seed coarse constants)

/-- The mutable state of the vendor module
`infinigen.assets.sim_objects.door`: its `random_door_factory` attribute. -/
structure DoorModule where
  random_door_factory : VendorInit → Option (Nat → Bool → Option Unit → Factory)

/-- Whether the `try: import ...` block at the top of `patch_door_factory`
(lines 178-186) succeeds. -/
structure ImportEnv where
  imports_ok : Bool

/-- `patch_door_factory()` (lines 175-228): on import failure prints and
returns `False` leaving the module untouched; otherwise overwrites
`door_module.random_door_factory` with the patched closure and returns
`True`. -/
def patch_door_factory (env : ImportEnv) (m : DoorModule) : Bool × DoorModule :=
  if env.imports_ok then
    (true, { m with random_door_factory := patched_random_door_factory })
  else
    (false, m)

/-! ## Effect traces

Filesystem and process effects performed by the orchestration functions.
`copyFile` and `moveDir` never occur in any trace of the embedded code; the
constructors exist so that their absence is expressible. -/

inductive FsEffect
  | mkdirs (path : String)
  | writeFile (path : String)
  | removeFile (path : String)
  | existsCheck (path : String)
  | readFileE (path : String)
  | listDirE (path : String)
  | chdir (path : String)
  | runSubprocess (prog : String) (args : List String)
  | copyFile (src dst : String)
  | moveDir (src dst : String)
  deriving DecidableEq, Repr

/-- Whether an effect copies a file or moves/renames a directory. -/
def copiesOrMoves : FsEffect → Bool
  | FsEffect.copyFile _ _ => true
  | FsEffect.moveDir _ _ => true
  | _ => false

/-- Whether an effect launches a subprocess. -/
def isSubprocCall : FsEffect → Bool
  | FsEffect.runSubprocess _ _ => true
  | _ => false

/-- `os.chdir` is the only effect that changes the working directory. -/
def applyCwdEffect (cwd : String) : FsEffect → String
  | FsEffect.chdir p => p
  | _ => cwd

/-- The working directory after a trace of effects, starting from `cwd0`. -/
def finalCwd (cwd0 : String) (tr : List FsEffect) : String :=
  tr.foldl applyCwdEffect cwd0

/-- Outcome of a completed `subprocess.run` call. -/
structure ProcResult where
  returncode : Int
  stdout : String
  stderr : String
  deriving DecidableEq, Repr

/-! ## Substring containment (Python's `needle in haystack`) -/

/-- Whether the second character list is a prefix of the first. -/
def charsStartWith : List Char → List Char → Bool
  | _, [] => true
  | [], _ :: _ => false
  | a :: as, b :: bs => a == b && charsStartWith as bs

/-- Whether the second character list occurs contiguously in the first. -/
def charsContain : List Char → List Char → Bool
  | [], needle => needle.isEmpty
  | a :: as, needle => charsStartWith (a :: as) needle || charsContain as needle

/-- The success marker searched for in Blender's captured stdout
(`complete_door_generator.py` line 457). -/
def successMarker : String := "🎉 Door generation successful!"

/-- Python's `successMarker in s`. -/
def containsMarker (s : String) : Bool :=
  charsContain s.data successMarker.data

/-! ## `run_blender_generation` (`complete_door_generator.py` lines 429-478) -/

/-- The outside world as seen by `run_blender_generation`:
whether `os.path.exists(BLENDER_PATH)` holds, the value of `__file__`,
and the outcome of `subprocess.run` (`error` = a raised exception). -/
structure BlenderGenEnv where
  blenderExists : Bool
  scriptFile : String
  run : Except String ProcResult

/-- `run_blender_generation()`: checks the hardcoded Blender path, saves the
working directory, `os.chdir(INFINIGEN_PATH)`, runs Blender in background
mode on the script itself, and in the `finally` block restores the saved
directory on every path, including when the subprocess call raises.  On a
non-zero return code the stage still succeeds when the captured stdout
contains the success marker (lines 455-469).  Returns the effect trace and
the outcome (`Except.error` = exception propagated to the caller). -/
def run_blender_generation (env : BlenderGenEnv) (original_cwd : String) :
    List FsEffect × Except String Bool :=
  if env.blenderExists = false then
    ([FsEffect.existsCheck BLENDER_PATH], Except.ok false)
  else
    let tr := [FsEffect.existsCheck BLENDER_PATH,
               FsEffect.chdir INFINIGEN_PATH,
               FsEffect.runSubprocess BLENDER_PATH
                 ["--background", "--python", env.scriptFile],
               FsEffect.chdir original_cwd]
    match env.run with
    | Except.error e => (tr, Except.error e)
    | Except.ok r =>
        if r.returncode == 0 then (tr, Except.ok true)
        else if containsMarker r.stdout then (tr, Except.ok true)
        else (tr, Except.ok false)

/-! ## `export_to_mujoco` (`complete_door_generator.py` lines 231-346) -/

/-- The outside world as seen by `export_to_mujoco`: the outcome of the
subprocess call, and whether the temporary script still exists when the
`finally` cleanup runs. -/
structure ExportEnv where
  run : Except String ProcResult
  scriptStillExists : Bool

/-- `export_to_mujoco()`: creates the output directory, writes a temporary
export script to `/tmp`, runs it with the conda-environment interpreter,
and returns `True` exactly when the return code is zero; the `finally`
block removes the temporary script when it exists.  An exception from
`subprocess.run` propagates (after cleanup). -/
def export_to_mujoco (env : ExportEnv) : List FsEffect × Except String Bool :=
  let pre := [FsEffect.mkdirs OUTPUT_DIR, FsEffect.writeFile EXPORT_SCRIPT_PATH,
              FsEffect.runSubprocess CONDA_PYTHON [EXPORT_SCRIPT_PATH]]
  let cleanup := FsEffect.existsCheck EXPORT_SCRIPT_PATH ::
      (if env.scriptStillExists then [FsEffect.removeFile EXPORT_SCRIPT_PATH] else [])
  match env.run with
  | Except.error e => (pre ++ cleanup, Except.error e)
  | Except.ok r => (pre ++ cleanup, Except.ok (r.returncode == 0))

/-! ## `verify_output` (`complete_door_generator.py` lines 354-386) -/

/-- The filesystem as seen by `verify_output`. -/
structure FileSystem where
  fileExists : String → Bool
  readFile : String → Except String String
  dirExists : String → Bool
  listDir : String → List String

def doorXmlPath : String := OUTPUT_DIR ++ "/door.xml"

def visualAssetsDir : String := OUTPUT_DIR ++ "/assets/visual"

/-- `verify_output()`: returns `True` exactly when `door.xml` exists in the
output directory.  The XML read (whose failure is caught and only printed),
the handle-substring check on its content, and the visual-assets listing
happen inside the success branch and influence nothing but printed
messages. -/
def verify_output (fs : FileSystem) : List FsEffect × Bool :=
  if fs.fileExists doorXmlPath then
    ([FsEffect.existsCheck doorXmlPath, FsEffect.readFileE doorXmlPath,
      FsEffect.existsCheck visualAssetsDir] ++
     (if fs.dirExists visualAssetsDir then [FsEffect.listDirE visualAssetsDir] else []),
     true)
  else
    ([FsEffect.existsCheck doorXmlPath], false)

/-! ## `main` (`complete_door_generator.py` lines 486-546), branch taken
when `import bpy` fails, i.e. outside Blender -/

inductive Stage
  | generation
  | exportStage
  | verification
  deriving DecidableEq, Repr

/-- The outside-Blender branch of `main()`: runs the three stages in order
inside one `try`, returning `False` as soon as a stage returns `False`; any
exception raised by a stage is caught and turns into `False`.  The result
records which stages were entered and the returned boolean. -/
def main_outside_blender (genv : BlenderGenEnv) (cwd : String)
    (eenv : ExportEnv) (fs : FileSystem) : List Stage × Bool :=
  match (run_blender_generation genv cwd).2 with
  | Except.error _ => ([Stage.generation], false)
  | Except.ok false => ([Stage.generation], false)
  | Except.ok true =>
      match (export_to_mujoco eenv).2 with
      | Except.error _ => ([Stage.generation, Stage.exportStage], false)
      | Except.ok false => ([Stage.generation, Stage.exportStage], false)
      | Except.ok true =>
          if (verify_output fs).2 then
            ([Stage.generation, Stage.exportStage, Stage.verification], true)
          else
            ([Stage.generation, Stage.exportStage, Stage.verification], false)

/-- `sys.exit(0 if success else 1)` (line 546). -/
def scriptExit (success : Bool) : Nat :=
  if success then 0 else 1

/-- All effects a full pipeline run can perform (the three stages
concatenated; an actual run performs a prefix-closed subsequence of this). -/
def pipelineEffects (genv : BlenderGenEnv) (cwd : String) (eenv : ExportEnv)
    (fs : FileSystem) : List FsEffect :=
  (run_blender_generation genv cwd).1 ++ (export_to_mujoco eenv).1 ++
    (verify_output fs).1

/-! ## Door creation inside Blender (`blender_exact_door.py` lines 68-151
and `complete_door_generator.py` lines 98-167) -/

/-- Python exceptions raised by the door-creation functions. -/
inductive PyExn
  | valueError (door_type : String)
  | runtimeError (msg : String)
  deriving DecidableEq, Repr

/-- Actions performed on the Blender scene, in order.  `createAsset`
records the factory object at the moment `factory.create_asset()` is
invoked. -/
inductive DoorAction
  | clearScene
  | constructedFactory (c : FactoryClass) (factory_seed : Nat)
  | createAsset (f : Factory)
  | savedBlend (filename : String)
  deriving DecidableEq, Repr

/-- The Blender-side world: the vendor library's seeded randomization and
the behaviour of `factory.create_asset()` (`none` models `create_asset()`
returning `None`, the object name otherwise). -/
structure BlenderEnv where
  vi : VendorInit
  createAssetResult : Factory → Option String

/-- The three direct attribute assignments `factory.handle_type = ...`,
`factory.x_subdivisions = ...`, `factory.y_subdivisions = ...`
(`blender_exact_door.py` lines 127-129, `complete_door_generator.py`
lines 145-147); assignment creates an absent attribute. -/
def forceAttributes (f : Factory) (handle_type : String)
    (x_subdivisions y_subdivisions : Nat) : Factory :=
  { f with
    handle_type := handle_type
    x_subdivisions := some x_subdivisions
    y_subdivisions := some y_subdivisions }

/-- `create_exact_door(door_type, handle_type, x_subdivisions,
y_subdivisions, seed)` from `blender_exact_door.py` (lines 68-151): clears
the scene, raises `ValueError` on an unknown door type, otherwise
constructs the factory with the fixed seed, assigns the three requested
attributes directly onto it, and calls `create_asset()` (a `None` result
raises `RuntimeError`).  Returns the action trace and the outcome (the
created object's name on success). -/
def create_exact_door_blender (env : BlenderEnv) (door_type handle_type : String)
    (x_subdivisions y_subdivisions seed : Nat) :
    List DoorAction × Except PyExn String :=
  match factory_map door_type with
  | none => ([DoorAction.clearScene], Except.error (PyExn.valueError door_type))
  | some factory_class =>
      let factory := forceAttributes
        (constructFactory env.vi factory_class seed false)
        handle_type x_subdivisions y_subdivisions
      match env.createAssetResult factory with
      | none =>
          ([DoorAction.clearScene,
            DoorAction.constructedFactory factory_class seed,
            DoorAction.createAsset factory],
           Except.error (PyExn.runtimeError "create_asset() returned None"))
      | some name =>
          ([DoorAction.clearScene,
            DoorAction.constructedFactory factory_class seed,
            DoorAction.createAsset factory], Except.ok name)

/-- `create_exact_door()` from `complete_door_generator.py` (lines 98-167):
the same flow specialised to the module constants, returning `False` when
the imports fail, saving the blend file and returning `True` on success. -/
def create_exact_door_cdg (env : BlenderEnv) (imports_ok : Bool) :
    List DoorAction × Except PyExn Bool :=
  if imports_ok then
    match factory_map DOOR_TYPE with
    | none => ([DoorAction.clearScene], Except.error (PyExn.valueError DOOR_TYPE))
    | some factory_class =>
        let factory := forceAttributes
          (constructFactory env.vi factory_class SEED false)
          HANDLE_TYPE X_SUBDIVISIONS Y_SUBDIVISIONS
        match env.createAssetResult factory with
        | none =>
            ([DoorAction.clearScene,
              DoorAction.constructedFactory factory_class SEED,
              DoorAction.createAsset factory],
             Except.error (PyExn.runtimeError "Failed to create door asset"))
        | some _ =>
            ([DoorAction.clearScene,
              DoorAction.constructedFactory factory_class SEED,
              DoorAction.createAsset factory,
              DoorAction.savedBlend
                ("door_" ++ DOOR_TYPE ++ "_" ++ HANDLE_TYPE ++ "_" ++
                  toString SEED ++ ".blend")], Except.ok true)
  else
    ([], Except.ok false)

/-! ## `generate_single_door.py` (lines 347-473) -/

/-- Outcome of the subprocess call launching a generation method:
`completed` with a return code and captured output, a timeout, or some
other raised exception. -/
inductive RunOutcome
  | completed (returncode : Int) (stdout stderr : String)
  | timedOut
  | raised (msg : String)
  deriving DecidableEq, Repr

/-- Whether a generation subprocess failed (non-zero return code, timeout,
or raised exception). -/
def runOutcomeFailed : RunOutcome → Bool
  | RunOutcome.completed rc _ _ => !(rc == 0)
  | RunOutcome.timedOut => true
  | RunOutcome.raised _ => true

/-- The two generation methods `generate_single_door.py` can attempt: the
custom Blender script, and the original `spawn_sim_ready_asset.sh` script
used by `fallback_generation`. -/
inductive GenMethod
  | customBlenderScript
  | spawnSimReadyScript
  deriving DecidableEq, Repr

/-- The outside world as seen by `generate_single_door_mujoco` and
`fallback_generation`.  `fallbackLatestDir` is the value of
`max(seed_dirs, key=mtime)` when `seed_dirs` is non-empty. -/
structure SingleDoorEnv where
  customRun : RunOutcome
  customOutputDirExists : Bool
  fallbackRun : RunOutcome
  fallbackExportDirExists : Bool
  fallbackSeedDirs : List String
  fallbackLatestDir : String

/-- The output directory of `generate_single_door.py` for its configured
seed 2001. -/
def customOutputDir : String := "sim_exports/mjcf/door/2001"

/-- `fallback_generation()` (lines 429-473): runs
`./scripts/spawn_sim_ready_asset.sh` once; returns the most recently
modified seed directory when the return code is zero, the export directory
exists and it contains seed directories, and `None` otherwise (timeouts
and exceptions are caught, printed, and also yield `None`). -/
def fallback_generation (env : SingleDoorEnv) : List GenMethod × Option String :=
  match env.fallbackRun with
  | RunOutcome.completed rc _ _ =>
      ([GenMethod.spawnSimReadyScript],
       if rc == 0 && env.fallbackExportDirExists && !env.fallbackSeedDirs.isEmpty
       then some env.fallbackLatestDir else none)
  | RunOutcome.timedOut => ([GenMethod.spawnSimReadyScript], none)
  | RunOutcome.raised _ => ([GenMethod.spawnSimReadyScript], none)

/-- `generate_single_door_mujoco()` (lines 347-427): writes the custom
generator script and the gin config, runs Blender on the custom script
once; on a zero return code it returns the output directory when it
exists (`None` otherwise, with only a warning printed); on a non-zero
return code, a timeout, or any other exception it calls
`fallback_generation()`.  Returns the trace of generation methods
attempted and the resulting directory. -/
def generate_single_door_mujoco (env : SingleDoorEnv) :
    List GenMethod × Option String :=
  match env.customRun with
  | RunOutcome.completed rc _ _ =>
      if rc == 0 then
        ([GenMethod.customBlenderScript],
         if env.customOutputDirExists then some customOutputDir else none)
      else
        let fb := fallback_generation env
        (GenMethod.customBlenderScript :: fb.1, fb.2)
  | RunOutcome.timedOut =>
      let fb := fallback_generation env
      (GenMethod.customBlenderScript :: fb.1, fb.2)
  | RunOutcome.raised _ =>
      let fb := fallback_generation env
      (GenMethod.customBlenderScript :: fb.1, fb.2)

/-! ## Concrete sample worlds used to instantiate the theorems -/

/-- A door module before patching, whose `random_door_factory` is not the
patched closure. -/
def emptyDoorModule : DoorModule :=
  { random_door_factory := fun _ => none }

/-- A sample vendor randomization: seeded construction yields a `knob`
handle, no `x_subdivisions` attribute and `y_subdivisions = 5`. -/
def someVendorInit : VendorInit :=
  { init_handle := fun _ _ _ => "knob"
    init_x := fun _ _ _ => none
    init_y := fun _ _ _ => some 5 }

/-- A sample Blender world where `create_asset()` always returns an object
named `door`. -/
def someBlenderEnv : BlenderEnv :=
  { vi := someVendorInit
    createAssetResult := fun _ => some "door" }

/-- The factory object passed to `create_asset()` when
`create_exact_door_blender` runs in `someBlenderEnv` with arguments
`("panel", "pull", 3, 4, 7)`. -/
def c4Factory : Factory :=
  { cls := FactoryClass.PanelDoorFactory
    factory_seed := 7
    coarse := false
    handle_type := "pull"
    x_subdivisions := some 3
    y_subdivisions := some 4 }

/-- A world where Blender is absent from the hardcoded path. -/
def someGenEnv : BlenderGenEnv :=
  { blenderExists := false
    scriptFile := "complete_door_generator.py"
    run := Except.ok ⟨0, "", ""⟩ }

/-- A completed Blender run with a non-zero exit code whose stdout carries
the success marker. -/
def markerProc : ProcResult :=
  { returncode := 1
    stdout := "warn x 🎉 Door generation successful! done"
    stderr := "warnings" }

/-- A world where Blender exists and exits non-zero with the marker in
stdout. -/
def markerEnv : BlenderGenEnv :=
  { blenderExists := true
    scriptFile := "complete_door_generator.py"
    run := Except.ok markerProc }

/-- A sample export world. -/
def someExportEnv : ExportEnv :=
  { run := Except.ok ⟨0, "", ""⟩
    scriptStillExists := true }

/-- A sample filesystem. -/
def someFs : FileSystem :=
  { fileExists := fun _ => true
    readFile := fun _ => Except.ok ""
    dirExists := fun _ => false
    listDir := fun _ => [] }

/-- A run of `generate_single_door.py` where the custom generation exits
non-zero and the fallback then succeeds. -/
def c3FailEnv : SingleDoorEnv :=
  { customRun := RunOutcome.completed 1 "" ""
    customOutputDirExists := false
    fallbackRun := RunOutcome.completed 0 "" ""
    fallbackExportDirExists := true
    fallbackSeedDirs := ["2001"]
    fallbackLatestDir := "sim_exports/mjcf/door/2001" }

/-- A run of `generate_single_door.py` where the custom generation times
out and the fallback raises. -/
def c3BothFailEnv : SingleDoorEnv :=
  { customRun := RunOutcome.timedOut
    customOutputDirExists := false
    fallbackRun := RunOutcome.raised "boom"
    fallbackExportDirExists := false
    fallbackSeedDirs := []
    fallbackLatestDir := "" }

/-- Subprocess launches performed by `run_blender_generation` use the
hardcoded Blender path and include the `--background` flag. -/
def blenderCallOk : FsEffect → Bool
  | FsEffect.runSubprocess prog args =>
      prog == BLENDER_PATH && args.contains "--background"
  | _ => true

/-! ## Theorems -/

/-- Helper: no effect of any pipeline run copies a file or moves a
directory. -/
theorem pipeline_effects_no_copy (genv : BlenderGenEnv) (cwd : String)
    (eenv : ExportEnv) (fs : FileSystem) :
    (pipelineEffects genv cwd eenv fs).all (fun e => !(copiesOrMoves e)) = true := by
  unfold pipelineEffects run_blender_generation export_to_mujoco verify_output
  simp only [List.all_append, Bool.and_eq_true]
  refine ⟨⟨?_, ?_⟩, ?_⟩
  · rcases hr : genv.run with e | r <;> (repeat' split) <;> simp [copiesOrMoves]
  · rcases hr : eenv.run with e | r <;> simp only [hr] <;>
      (repeat' split) <;> simp [copiesOrMoves, List.all_append]
  · (repeat' split) <;> simp [copiesOrMoves, List.all_append]

/-- C1: after `patch_door_factory` returns `True`, the vendor module's
`random_door_factory` attribute has been replaced by the patched closure,
which returns a constructor that for every vendor randomization, factory
seed, coarse flag and constants argument builds a factory of the class
`factory_map` selects for the fixed `DOOR_TYPE` (`LouverDoorFactory`),
forces `handle_type` to `HANDLE_TYPE` unconditionally, and forces each
subdivision count to the fixed value exactly when the constructed factory
has that attribute — so the factory selection is independent of any random
choice. -/
theorem patch_door_factory_forces_fixed_params (env : ImportEnv) (m m' : DoorModule)
    (h : patch_door_factory env m = (true, m')) :
    m'.random_door_factory = patched_random_door_factory ∧
    factory_map DOOR_TYPE = some FactoryClass.LouverDoorFactory ∧
    ∀ vi : VendorInit, ∃ cons, patched_random_door_factory vi = some cons ∧
      ∀ factory_seed coarse constants,
        (cons factory_seed coarse constants).cls = FactoryClass.LouverDoorFactory ∧
        (cons factory_seed coarse constants).handle_type = HANDLE_TYPE ∧
        (cons factory_seed coarse constants).x_subdivisions =
          (if (vi.init_x FactoryClass.LouverDoorFactory factory_seed coarse).isSome
           then some X_SUBDIVISIONS else none) ∧
        (cons factory_seed coarse constants).y_subdivisions =
          (if (vi.init_y FactoryClass.LouverDoorFactory factory_seed coarse).isSome
           then some Y_SUBDIVISIONS else none) := by
  unfold patch_door_factory at h
  rcases hio : env.imports_ok with _ | _
  · rw [hio] at h; simp at h
  · rw [hio] at h
    simp only [if_true] at h
    injection h with h1 h2
    subst h2
    refine ⟨rfl, rfl, ?_⟩
    intro vi
    refine ⟨fun factory_seed coarse constants =>
      create_exact_factory vi FactoryClass.LouverDoorFactory factory_seed coarse constants,
      rfl, ?_⟩
    intro factory_seed coarse constants
    cases hx : vi.init_x FactoryClass.LouverDoorFactory factory_seed coarse <;>
      cases hy : vi.init_y FactoryClass.LouverDoorFactory factory_seed coarse <;>
        simp [create_exact_factory, constructFactory, hx, hy, HANDLE_TYPE]

/-- C1 witness: the patch applied to a concrete initial module succeeds and
installs the patched closure. -/
theorem patch_door_factory_forces_fixed_params_witness :
    ((patch_door_factory ⟨true⟩ emptyDoorModule).2).random_door_factory
      = patched_random_door_factory ∧
    factory_map DOOR_TYPE = some FactoryClass.LouverDoorFactory := by
  have h := patch_door_factory_forces_fixed_params ⟨true⟩ emptyDoorModule
    (patch_door_factory ⟨true⟩ emptyDoorModule).2 rfl
  exact ⟨h.1, h.2.1⟩

/-- C2: outside Blender, `main` runs generation, export and verification in
that fixed order; a later stage is entered exactly when every earlier
stage returned `True`; the first stage returning `False` (or raising) ends
the run with `False`; and the process exit code is `0` exactly when all
three stages returned `True`. -/
theorem main_pipeline_stage_sequencing (genv : BlenderGenEnv) (cwd : String)
    (eenv : ExportEnv) (fs : FileSystem) :
    ((main_outside_blender genv cwd eenv fs).1 = [Stage.generation] ∨
     (main_outside_blender genv cwd eenv fs).1 = [Stage.generation, Stage.exportStage] ∨
     (main_outside_blender genv cwd eenv fs).1 =
        [Stage.generation, Stage.exportStage, Stage.verification]) ∧
    (Stage.generation ∈ (main_outside_blender genv cwd eenv fs).1) ∧
    (Stage.exportStage ∈ (main_outside_blender genv cwd eenv fs).1 ↔
      (run_blender_generation genv cwd).2 = Except.ok true) ∧
    (Stage.verification ∈ (main_outside_blender genv cwd eenv fs).1 ↔
      ((run_blender_generation genv cwd).2 = Except.ok true ∧
       (export_to_mujoco eenv).2 = Except.ok true)) ∧
    ((main_outside_blender genv cwd eenv fs).2 = true ↔
      ((run_blender_generation genv cwd).2 = Except.ok true ∧
       (export_to_mujoco eenv).2 = Except.ok true ∧
       (verify_output fs).2 = true)) ∧
    (scriptExit (main_outside_blender genv cwd eenv fs).2 = 0 ↔
      (main_outside_blender genv cwd eenv fs).2 = true) := by
  unfold main_outside_blender
  rcases hg : (run_blender_generation genv cwd).2 with eg | bg
  · simp [hg, scriptExit]
  · rcases hbg : bg with _ | _
    · simp [hg, scriptExit]
    · rcases he : (export_to_mujoco eenv).2 with ee | be
      · simp [hg, he, scriptExit]
      · rcases hbe : be with _ | _
        · simp [hg, he, scriptExit]
        · rcases hv : (verify_output fs).2 with _ | _ <;> simp [hg, he, hv, scriptExit]

/-- C3 counterexample: the claim that after a failed generation stage no
alternative generation method is attempted (and `None` is returned) is
false: when the custom Blender run of `generate_single_door.py` exits
non-zero, `fallback_generation` is invoked and can even return a
successful output directory. -/
theorem no_alternative_method_counterexample :
    ¬ (∀ env : SingleDoorEnv, runOutcomeFailed env.customRun = true →
        GenMethod.spawnSimReadyScript ∉ (generate_single_door_mujoco env).1 ∧
        (generate_single_door_mujoco env).2 = none) := by
  intro hcl
  have h := hcl c3FailEnv (by decide)
  exact absurd (by decide :
    GenMethod.spawnSimReadyScript ∈ (generate_single_door_mujoco c3FailEnv).1) h.1

/-- C3 amended: no generation method is ever retried — the custom method is
attempted exactly once, and the `spawn_sim_ready_asset.sh` fallback is
attempted exactly once and exactly when the custom run failed (non-zero
exit, timeout or exception); when the fallback fails too the result is
`None` with nothing further attempted; and the `complete_door_generator`
pipeline never runs a stage twice. -/
theorem failure_fallback_behaviour (env : SingleDoorEnv) (genv : BlenderGenEnv)
    (cwd : String) (eenv : ExportEnv) (fs : FileSystem) :
    (generate_single_door_mujoco env).1 =
      (if runOutcomeFailed env.customRun then
        [GenMethod.customBlenderScript, GenMethod.spawnSimReadyScript]
       else [GenMethod.customBlenderScript]) ∧
    (runOutcomeFailed env.customRun = true →
      runOutcomeFailed env.fallbackRun = true →
      (generate_single_door_mujoco env).2 = none) ∧
    (main_outside_blender genv cwd eenv fs).1.Nodup := by
  have hnodup : (main_outside_blender genv cwd eenv fs).1.Nodup := by
    unfold main_outside_blender
    (repeat' split) <;> simp
  refine ⟨?_, ?_, hnodup⟩
  · unfold generate_single_door_mujoco runOutcomeFailed fallback_generation
    rcases hc : env.customRun with ⟨rc, out, err⟩ | _ | msg
    · by_cases hrc : (rc == 0) = true
      · simp [hrc]
      · simp only [Bool.not_eq_true] at hrc
        rcases hf : env.fallbackRun with _ | _ | _ <;> simp [hrc, hf]
    · rcases hf : env.fallbackRun with _ | _ | _ <;> simp [hf]
    · rcases hf : env.fallbackRun with _ | _ | _ <;> simp [hf]
  · intro hcf hff
    unfold generate_single_door_mujoco fallback_generation
    unfold runOutcomeFailed at hcf hff
    rcases hc : env.customRun with ⟨rc, out, err⟩ | _ | msg <;>
      rcases hf : env.fallbackRun with ⟨rc2, out2, err2⟩ | _ | msg2 <;>
        rw [hc] at hcf <;> rw [hf] at hff <;> simp_all

/-- C3 witness: with a timed-out custom run and a raising fallback, the two
methods are attempted once each and the result is `None`; the pipeline
stage list of a concrete run has no duplicates. -/
theorem failure_fallback_behaviour_witness :
    (generate_single_door_mujoco c3BothFailEnv).1 =
      (if runOutcomeFailed c3BothFailEnv.customRun then
        [GenMethod.customBlenderScript, GenMethod.spawnSimReadyScript]
       else [GenMethod.customBlenderScript]) ∧
    (generate_single_door_mujoco c3BothFailEnv).2 = none ∧
    (main_outside_blender someGenEnv "/home" someExportEnv someFs).1.Nodup := by
  have h := failure_fallback_behaviour c3BothFailEnv someGenEnv "/home" someExportEnv someFs
  exact ⟨h.1, h.2.1 rfl rfl, h.2.2⟩

/-- C4: whatever factory object reaches `create_asset()` in
`create_exact_door` carries exactly the caller-supplied `handle_type`,
`x_subdivisions` and `y_subdivisions`, was seeded with the requested seed
and belongs to the class `factory_map` selects — regardless of the values
the factory's own seeded randomization had assigned; likewise for the
module-constant variant in `complete_door_generator.py`. -/
theorem create_exact_door_forces_attributes (env : BlenderEnv)
    (door_type handle_type : String) (x_subdivisions y_subdivisions seed : Nat)
    (f : Factory)
    (hmem : DoorAction.createAsset f ∈
      (create_exact_door_blender env door_type handle_type
        x_subdivisions y_subdivisions seed).1) :
    f.handle_type = handle_type ∧ f.x_subdivisions = some x_subdivisions ∧
    f.y_subdivisions = some y_subdivisions ∧ f.factory_seed = seed ∧
    factory_map door_type = some f.cls ∧
    (∀ g : Factory, DoorAction.createAsset g ∈ (create_exact_door_cdg env true).1 →
      g.handle_type = HANDLE_TYPE ∧ g.x_subdivisions = some X_SUBDIVISIONS ∧
      g.y_subdivisions = some Y_SUBDIVISIONS ∧ g.factory_seed = SEED) := by
  have hcdg : ∀ g : Factory, DoorAction.createAsset g ∈ (create_exact_door_cdg env true).1 →
      g.handle_type = HANDLE_TYPE ∧ g.x_subdivisions = some X_SUBDIVISIONS ∧
      g.y_subdivisions = some Y_SUBDIVISIONS ∧ g.factory_seed = SEED := by
    intro g hg
    unfold create_exact_door_cdg at hg
    have hDM : factory_map DOOR_TYPE = some FactoryClass.LouverDoorFactory := rfl
    simp only [if_true, hDM] at hg
    rcases hres : env.createAssetResult (forceAttributes
        (constructFactory env.vi FactoryClass.LouverDoorFactory SEED false)
        HANDLE_TYPE X_SUBDIVISIONS Y_SUBDIVISIONS) with _ | nm
    · simp only [hres] at hg
      simp at hg
      subst hg
      simp [forceAttributes, constructFactory]
    · simp only [hres] at hg
      simp at hg
      subst hg
      simp [forceAttributes, constructFactory]
  unfold create_exact_door_blender at hmem
  rcases hfm : factory_map door_type with _ | c
  · simp only [hfm] at hmem
    simp at hmem
  · simp only [hfm] at hmem
    rcases hres : env.createAssetResult (forceAttributes
        (constructFactory env.vi c seed false)
        handle_type x_subdivisions y_subdivisions) with _ | nm
    · simp only [hres] at hmem
      simp at hmem
      subst hmem
      exact ⟨rfl, rfl, rfl, rfl, by simp [forceAttributes, constructFactory, hfm], hcdg⟩
    · simp only [hres] at hmem
      simp at hmem
      subst hmem
      exact ⟨rfl, rfl, rfl, rfl, by simp [forceAttributes, constructFactory, hfm], hcdg⟩

/-- C4 witness: the factory passed to `create_asset()` in a concrete run
with arguments `("panel", "pull", 3, 4, 7)` carries exactly those values,
although the vendor randomization assigned a `knob` handle and no
`x_subdivisions` attribute. -/
theorem create_exact_door_forces_attributes_witness :
    c4Factory.handle_type = "pull" ∧ c4Factory.x_subdivisions = some 3 ∧
    c4Factory.y_subdivisions = some 4 ∧ c4Factory.factory_seed = 7 ∧
    factory_map "panel" = some c4Factory.cls := by
  have h := create_exact_door_forces_attributes someBlenderEnv "panel" "pull" 3 4 7
    c4Factory (by decide)
  exact ⟨h.1, h.2.1, h.2.2.1, h.2.2.2.1, h.2.2.2.2.1⟩

/-- C5: `verify_output` returns `True` exactly when `door.xml` exists in
the configured output directory; the XML content, read failures and the
visual-assets directory never influence the returned value. -/
theorem verify_output_iff_xml_exists (fs : FileSystem) :
    (verify_output fs).2 = fs.fileExists doorXmlPath := by
  unfold verify_output
  split <;> simp_all

/-- C6 counterexample: the claim that some pipeline run performs an
operation copying exported asset files or moving/renaming an output
directory is false: no effect of any run of the
generation/export/verification pipeline copies or moves anything. -/
theorem post_processing_copy_counterexample :
    ¬ ∃ (genv : BlenderGenEnv) (cwd : String) (eenv : ExportEnv) (fs : FileSystem)
        (e : FsEffect), e ∈ pipelineEffects genv cwd eenv fs ∧ copiesOrMoves e = true := by
  rintro ⟨genv, cwd, eenv, fs, e, hmem, hcm⟩
  have h := pipeline_effects_no_copy genv cwd eenv fs
  rw [List.all_eq_true] at h
  have h2 := h e hmem
  rw [hcm] at h2
  simp at h2

/-- C6 amended: the scripts post-process only by creating directories,
writing and deleting their own temporary script, launching subprocesses,
changing directory, and checking/reading/listing files — no operation of
any pipeline run copies exported asset files or moves/renames an output
directory. -/
theorem post_processing_no_copy_amended (genv : BlenderGenEnv) (cwd : String)
    (eenv : ExportEnv) (fs : FileSystem) :
    ∀ e ∈ pipelineEffects genv cwd eenv fs, copiesOrMoves e = false := by
  intro e he
  have h := pipeline_effects_no_copy genv cwd eenv fs
  rw [List.all_eq_true] at h
  simpa using h e he

/-- C6 witness: the Blender-path existence check performed by a concrete
pipeline run is not a copy or move. -/
theorem post_processing_no_copy_amended_witness :
    copiesOrMoves (FsEffect.existsCheck BLENDER_PATH) = false :=
  post_processing_no_copy_amended someGenEnv "/home" someExportEnv someFs
    (FsEffect.existsCheck BLENDER_PATH) (by decide)

/-- C7: `run_blender_generation` launches subprocesses only at the
hardcoded `BLENDER_PATH` and always with the `--background` flag; when no
file exists at that path it returns `False` having launched no subprocess
at all. -/
theorem run_blender_generation_subprocess_discipline (env : BlenderGenEnv) (cwd : String) :
    (run_blender_generation env cwd).1.all blenderCallOk = true ∧
    (env.blenderExists = false →
      (run_blender_generation env cwd).2 = Except.ok false ∧
      (run_blender_generation env cwd).1.all (fun e => !(isSubprocCall e)) = true) := by
  unfold run_blender_generation
  rcases hb : env.blenderExists with _ | _
  · simp [hb, blenderCallOk, isSubprocCall]
  · simp only [hb]
    constructor
    · rcases hr : env.run with e | r <;> simp only [hr] <;>
        (repeat' split) <;> simp [blenderCallOk]
    · intro hfalse
      simp at hfalse

/-- C7 witness: in a world with no Blender at the hardcoded path, the stage
returns `False` and its trace contains no subprocess launch. -/
theorem run_blender_generation_subprocess_discipline_witness :
    (run_blender_generation someGenEnv "/home").2 = Except.ok false ∧
    (run_blender_generation someGenEnv "/home").1.all (fun e => !(isSubprocCall e)) = true :=
  (run_blender_generation_subprocess_discipline someGenEnv "/home").2 rfl

/-- C8: on a non-zero Blender exit code, `run_blender_generation` returns
`True` exactly when the captured stdout contains the success marker — the
stage's success is decided by stdout content, not by the exit code
alone. -/
theorem nonzero_exit_marker_decides (env : BlenderGenEnv) (cwd : String) (r : ProcResult)
    (hb : env.blenderExists = true) (hr : env.run = Except.ok r)
    (hrc : r.returncode ≠ 0) :
    ((run_blender_generation env cwd).2 = Except.ok true ↔
      containsMarker r.stdout = true) := by
  unfold run_blender_generation
  have hbc : (r.returncode == 0) = false := by simp [hrc]
  simp only [hb, hr, hbc]
  rcases hm : containsMarker r.stdout with _ | _ <;> simp [hm]

/-- C8 witness: a concrete run exiting with code 1 whose stdout carries the
marker is accepted as success. -/
theorem nonzero_exit_marker_decides_witness :
    (run_blender_generation markerEnv "/home").2 = Except.ok true :=
  (nonzero_exit_marker_decides markerEnv "/home" markerProc rfl rfl (by decide)).mpr
    (by decide)

/-- C9: for a door type outside `panel`, `glass_panel`, `louver`, `lite`,
`create_exact_door` raises `ValueError` after the scene has already been
cleared, and before any factory is constructed or `create_asset` is
called. -/
theorem invalid_door_type_raises (env : BlenderEnv) (door_type handle_type : String)
    (x_subdivisions y_subdivisions seed : Nat)
    (h : door_type ∉ ["panel", "glass_panel", "louver", "lite"]) :
    (create_exact_door_blender env door_type handle_type
        x_subdivisions y_subdivisions seed).1 = [DoorAction.clearScene] ∧
    (create_exact_door_blender env door_type handle_type
        x_subdivisions y_subdivisions seed).2 =
      Except.error (PyExn.valueError door_type) ∧
    DoorAction.clearScene ∈
      (create_exact_door_blender env door_type handle_type
        x_subdivisions y_subdivisions seed).1 ∧
    (∀ c fseed, DoorAction.constructedFactory c fseed ∉
      (create_exact_door_blender env door_type handle_type
        x_subdivisions y_subdivisions seed).1) ∧
    (∀ f : Factory, DoorAction.createAsset f ∉
      (create_exact_door_blender env door_type handle_type
        x_subdivisions y_subdivisions seed).1) := by
  have hfm : factory_map door_type = none := by
    simp only [List.mem_cons, List.not_mem_nil, or_false] at h
    push_neg at h
    obtain ⟨h1, h2, h3, h4⟩ := h
    unfold factory_map
    rw [if_neg h1, if_neg h2, if_neg h3, if_neg h4]
  unfold create_exact_door_blender
  simp [hfm]

/-- C9 witness: the door type `dutch` triggers the `ValueError` with the
scene already cleared. -/
theorem invalid_door_type_raises_witness :
    (create_exact_door_blender someBlenderEnv "dutch" "lever" 1 2 42).1 =
      [DoorAction.clearScene] ∧
    (create_exact_door_blender someBlenderEnv "dutch" "lever" 1 2 42).2 =
      Except.error (PyExn.valueError "dutch") := by
  have h := invalid_door_type_raises someBlenderEnv "dutch" "lever" 1 2 42 (by decide)
  exact ⟨h.1, h.2.1⟩

/-- C10: `run_blender_generation` restores the saved working directory on
every return path — success, failure and propagated exception alike. -/
theorem run_blender_generation_restores_cwd (env : BlenderGenEnv) (cwd : String) :
    finalCwd cwd (run_blender_generation env cwd).1 = cwd := by
  unfold run_blender_generation finalCwd
  rcases hb : env.blenderExists with _ | _
  · simp [hb, applyCwdEffect]
  · simp only [hb]
    rcases hr : env.run with e | r <;> simp only [hr] <;>
      (repeat' split) <;> simp [applyCwdEffect]

end DoorGen
